import Mathlib

/-!
Shallow embedding of the SudokuAPI Django backend (raphaellndr/SudokuAPI).

Each definition translates a function of the repository:
* `update_sudoku_status`, `update_sudoku_detection` — src/app/sudoku/base.py
* `SudokuViewSet.solve/abort/solution/delete_solution/status`,
  `get_queryset`, `get_object`, `check_sudoku_ownership` — src/app/sudoku/views.py
* `solve_sudoku` — src/app/sudoku/tasks.py
* model validation for `Sudoku.grid` / `SudokuSolution.grid` — src/app/sudoku/models.py
* `GameRecord.calculate_score/clean/save` — src/app/game_record/models.py
* `UserStats.recalculate_from_games` — src/app/user/models.py
* `UserStatsViewSet.leaderboard` — src/app/user/views.py
* `split_into_boxes`, `get_biggest_contour`, `reorder`, `preprocess_image`,
  `detect_digits`, `detect_sudoku_digits` — src/app/sudoku/detection/*, tasks.py

Database rows are Lean structures, the database itself is a list of rows,
`save` is a map over that list keyed on the primary key, and Django/Celery
side effects (WebSocket pushes, task results) are returned explicitly.
External library calls (the `sudoku_resolver` solver, cv2, the ONNX
classifier) are parameters of the functions that invoke them.
-/

namespace SudokuAPI

/-! ### Sudoku data model (src/app/sudoku/choices.py, models.py) -/

/-- `SudokuStatusChoices` from src/app/sudoku/choices.py. -/
inductive SudokuStatus
  | created
  | pending
  | running
  | completed
  | failed
  | aborted
  | invalid
  deriving DecidableEq, Repr

/-- A row of the `Sudoku` model (src/app/sudoku/models.py).  UUIDs are
modelled as naturals; `user` is the nullable foreign key. -/
structure SudokuRec where
  id : Nat
  user : Option Nat
  title : String
  difficulty : String
  grid : String
  status : SudokuStatus
  task_id : Option Nat
  deriving DecidableEq, Repr

/-- A row of the `SudokuSolution` model (one-to-one with `Sudoku`). -/
structure SolutionRec where
  sudoku_id : Nat
  grid : String
  deriving DecidableEq, Repr

/-- The relevant database state: the `Sudoku` and `SudokuSolution` tables. -/
structure Db where
  sudokus : List SudokuRec
  solutions : List SolutionRec
  deriving DecidableEq, Repr

/-- `sudoku.save()`: persist a row by primary key. -/
def Db.saveSudoku (db : Db) (s : SudokuRec) : Db :=
  { db with sudokus := db.sudokus.map (fun t => if t.id = s.id then s else t) }

/-- One WebSocket group message sent by `channel_layer.group_send` in
src/app/sudoku/base.py. -/
structure StatusMsg where
  group : String
  sudoku_id : Nat
  status : SudokuStatus
  deriving DecidableEq, Repr

/-- `update_sudoku_status` (src/app/sudoku/base.py lines 10-30): sets the
status, saves with `update_fields=["status"]`, and sends one group message
to `sudoku_status_<id>` carrying the sudoku id and the new status. -/
def update_sudoku_status (db : Db) (sudoku : SudokuRec) (status : SudokuStatus) :
    Db × SudokuRec × List StatusMsg :=
  let s := { sudoku with status := status }
  (db.saveSudoku s, s,
    [{ group := "sudoku_status_" ++ toString sudoku.id
       sudoku_id := sudoku.id
       status := status }])

/-! ### Sudoku views (src/app/sudoku/views.py) -/

/-- The distinct responses the sudoku detail actions can produce. -/
inductive Resp
  | solveStarted (sudoku_id : Nat) (task_id : Nat)
  | cannotSolve (status : SudokuStatus)
  | noTaskToAbort
  | cannotAbort (status : SudokuStatus)
  | abortSuccess
  | solutionData (grid : String)
  | solutionUnavailable
  | noSolutionFound
  | solutionDeleted
  | notYetCompleted
  | statusResp (status : SudokuStatus)
  | forbiddenOwnership
  | notFound
  deriving DecidableEq, Repr

/-- `_check_sudoku_ownership` (views.py lines 25-38): builds the 403 response
when the sudoku has an owner different from the requester, else `none`.
`requester = none` is an anonymous request. -/
def check_sudoku_ownership (sudoku : SudokuRec) (requester : Option Nat) : Option Resp :=
  if sudoku.user ≠ none ∧ sudoku.user ≠ requester then some Resp.forbiddenOwnership
  else none

/-- `SudokuViewSet.get_queryset`: anonymous users see ownerless sudokus,
authenticated users their own; then the optional difficulty filter. -/
def get_queryset (db : Db) (requester : Option Nat) (difficulties : List String) :
    List SudokuRec :=
  let queryset := db.sudokus.filter (fun s => s.user = requester)
  if difficulties.isEmpty then queryset
  else queryset.filter (fun s => s.difficulty ∈ difficulties)

/-- DRF `get_object`: first row of the filtered queryset with the requested
primary key, 404 (here `none`) otherwise. -/
def get_object (db : Db) (requester : Option Nat) (difficulties : List String)
    (pk : Nat) : Option SudokuRec :=
  (get_queryset db requester difficulties).find? (fun s => s.id = pk)

namespace SudokuViewSet

/-- `SudokuViewSet.solve` (views.py lines 124-159).  `taskId` is the id the
Celery broker assigns to the dispatched task (the happy path: the broker is
reachable, so the `except` branch is not taken). -/
def solve (db : Db) (requester : Option Nat) (difficulties : List String)
    (pk : Nat) (taskId : Nat) : Db × List StatusMsg × Resp :=
  match get_object db requester difficulties pk with
  | none => (db, [], Resp.notFound)
  | some sudoku =>
    let _ownership := check_sudoku_ownership sudoku requester
    if sudoku.status ∉ [SudokuStatus.created, SudokuStatus.failed, SudokuStatus.aborted] then
      (db, [], Resp.cannotSolve sudoku.status)
    else
      let (db1, s1, msgs) := update_sudoku_status db sudoku SudokuStatus.pending
      let s2 := { s1 with task_id := some taskId }
      (db1.saveSudoku s2, msgs, Resp.solveStarted pk taskId)

/-- `SudokuViewSet.abort` (views.py lines 161-201), happy path of the
`try` block (broker reachable). -/
def abort (db : Db) (requester : Option Nat) (difficulties : List String)
    (pk : Nat) : Db × List StatusMsg × Resp :=
  match get_object db requester difficulties pk with
  | none => (db, [], Resp.notFound)
  | some sudoku =>
    let _ownership := check_sudoku_ownership sudoku requester
    if sudoku.task_id = none then
      (db, [], Resp.noTaskToAbort)
    else if sudoku.status ∉ [SudokuStatus.running, SudokuStatus.pending] then
      (db, [], Resp.cannotAbort sudoku.status)
    else
      let (db1, s1, msgs) := update_sudoku_status db sudoku SudokuStatus.aborted
      let s2 := { s1 with task_id := none }
      (db1.saveSudoku s2, msgs, Resp.abortSuccess)

/-- `SudokuViewSet.solution` (views.py lines 203-224): status gate first,
then the one-to-one `sudoku.solution` access which may raise
`RelatedObjectDoesNotExist`. -/
def solution (db : Db) (requester : Option Nat) (difficulties : List String)
    (pk : Nat) : Db × List StatusMsg × Resp :=
  match get_object db requester difficulties pk with
  | none => (db, [], Resp.notFound)
  | some sudoku =>
    let _ownership := check_sudoku_ownership sudoku requester
    if sudoku.status ≠ SudokuStatus.completed then
      (db, [], Resp.solutionUnavailable)
    else
      match db.solutions.find? (fun r => r.sudoku_id = pk) with
      | none => (db, [], Resp.noSolutionFound)
      | some sol => (db, [], Resp.solutionData sol.grid)

/-- `SudokuViewSet.delete_solution` (views.py lines 226-247): the
`sudoku.solution` access comes before the status gate. -/
def delete_solution (db : Db) (requester : Option Nat) (difficulties : List String)
    (pk : Nat) : Db × List StatusMsg × Resp :=
  match get_object db requester difficulties pk with
  | none => (db, [], Resp.notFound)
  | some sudoku =>
    let _ownership := check_sudoku_ownership sudoku requester
    match db.solutions.find? (fun r => r.sudoku_id = pk) with
    | none => (db, [], Resp.noSolutionFound)
    | some _sol =>
      if sudoku.status ≠ SudokuStatus.completed then
        (db, [], Resp.notYetCompleted)
      else
        let db1 : Db :=
          { db with solutions := db.solutions.eraseP (fun r => r.sudoku_id = pk) }
        let (db2, _s1, msgs) := update_sudoku_status db1 sudoku SudokuStatus.created
        (db2, msgs, Resp.solutionDeleted)

/-- `SudokuViewSet.status` (views.py lines 249-255). -/
def status (db : Db) (requester : Option Nat) (difficulties : List String)
    (pk : Nat) : Db × List StatusMsg × Resp :=
  match get_object db requester difficulties pk with
  | none => (db, [], Resp.notFound)
  | some sudoku =>
    let _ownership := check_sudoku_ownership sudoku requester
    (db, [], Resp.statusResp sudoku.status)

end SudokuViewSet

/-! ### The solve task (src/app/sudoku/tasks.py) -/

/-- The dictionary returned by the `solve_sudoku` Celery task. -/
structure TaskRet where
  status : String
  error : Option String
  solution : Option Nat
  deriving DecidableEq, Repr

/-- `solve_sudoku` (tasks.py lines 37-71).  The external solver library is
the pair of parameters `check` (`check_consistency`, wrapped by
`_check_consistency` into a Bool) and `solveFn` (`SudokuResolver.solve`
followed by `to_string`).  A `none` task return models the uncaught
`NameError` of the `except` clause when the sudoku does not exist
(`sudoku` is unbound there), in which case nothing was written. -/
def solve_sudoku (db : Db) (check : String → Bool) (solveFn : String → String)
    (sudoku_id : Nat) : Db × List StatusMsg × Option TaskRet :=
  match db.sudokus.find? (fun s => s.id = sudoku_id) with
  | none => (db, [], none)
  | some sudoku =>
    let (db1, s1, m1) := update_sudoku_status db sudoku SudokuStatus.running
    if ¬ check s1.grid then
      let (db2, _s2, m2) := update_sudoku_status db1 s1 SudokuStatus.invalid
      (db2, m1 ++ m2, some { status := "failed", error := some "Inconsistent Sudoku", solution := none })
    else
      let solved := solveFn s1.grid
      if ¬ check solved then
        let (db2, _s2, m2) := update_sudoku_status db1 s1 SudokuStatus.invalid
        (db2, m1 ++ m2,
          some { status := "failed", error := some "Inconsistent Sudoku solution", solution := none })
      else
        let db1' : Db :=
          { db1 with solutions := db1.solutions ++ [{ sudoku_id := sudoku_id, grid := solved }] }
        let (db2, _s2, m2) := update_sudoku_status db1' s1 SudokuStatus.completed
        (db2, m1 ++ m2, some { status := "completed", error := none, solution := some sudoku_id })

/-! ### Model validation for grids (src/app/sudoku/models.py) -/

/-- The validators Django's `full_clean` runs on `Sudoku.grid`:
`max_length=81` on the `CharField` and `MinLengthValidator(81)`
(models.py lines 41-45). -/
def sudoku_grid_clean (grid : String) : Bool :=
  decide (grid.length ≤ 81) && decide (81 ≤ grid.length)

/-- The validators on `SudokuSolution.grid` (models.py lines 79-83):
the same `max_length=81` plus `MinLengthValidator(81)`. -/
def solution_grid_clean (grid : String) : Bool :=
  decide (grid.length ≤ 81) && decide (81 ≤ grid.length)

/-! ### Game records (src/app/game_record/choices.py, models.py) -/

/-- `GameStatusChoices` from src/app/game_record/choices.py. -/
inductive GameStatus
  | in_progress
  | completed
  | abandoned
  | stopped
  deriving DecidableEq, Repr

/-- A row of the `GameRecord` model (src/app/game_record/models.py).
`time_taken` is the `DurationField` in whole seconds
(`time_taken.total_seconds()`); integer fields are `Int` as in the DB. -/
structure GameRecord where
  user : Nat
  score : Int
  hints_used : Int
  checks_used : Int
  deletions : Int
  time_taken : Int
  won : Bool
  status : GameStatus
  original_puzzle : String
  solution : String
  final_state : String
  deriving DecidableEq, Repr

/-- `GameRecord.calculate_score` (models.py lines 158-181).  Python's `//`
is floor division, hence `Int.fdiv`. -/
def GameRecord.calculate_score (r : GameRecord) : Int :=
  if ¬ r.status = GameStatus.completed ∨ ¬ r.won then 0
  else
    let base_score : Int := 1000
    let hints_penalty := r.hints_used * 100
    let checks_penalty := r.checks_used * 50
    let deletions_penalty := r.deletions * 5
    let time_penalty := (Int.fdiv r.time_taken 60) * 15
    max (base_score - hints_penalty - checks_penalty - deletions_penalty - time_penalty) 0

/-- Django `full_clean` on a `GameRecord`: the field validators declared on
the model (score 0..1000, hints/checks 0..3, deletions ≥ 0, the three
81-character puzzle strings) plus the model's `clean`, which requires the
stored score to match `calculate_score`. -/
def GameRecord.full_clean_ok (r : GameRecord) : Bool :=
  decide (0 ≤ r.score) && decide (r.score ≤ 1000) &&
  decide (0 ≤ r.hints_used) && decide (r.hints_used ≤ 3) &&
  decide (0 ≤ r.checks_used) && decide (r.checks_used ≤ 3) &&
  decide (0 ≤ r.deletions) &&
  decide (r.original_puzzle.length = 81) &&
  decide (r.solution.length = 81) &&
  decide (r.final_state.length = 81) &&
  decide (r.score = r.calculate_score)

/-- The database write of `GameRecord.save` (models.py lines 192-202):
recompute the score when the game is completed, run `full_clean`, and
persist only if validation passes (`none` models the raised
`ValidationError`).  The cache deletions of `save` are modelled separately
by `game_record_save_cache_effect`. -/
def GameRecord.save (r : GameRecord) : Option GameRecord :=
  let r1 := if r.status = GameStatus.completed then { r with score := r.calculate_score } else r
  if r1.full_clean_ok then some r1 else none

/-! ### UserStats.recalculate_from_games (src/app/user/models.py) -/

/-- Python `round` rounds half to even.  Rounds a rational to the nearest
integer, ties to the even neighbour. -/
def roundHalfToEven (q : ℚ) : ℤ :=
  let f := ⌊q⌋
  let r := q - f
  if r < 1 / 2 then f
  else if 1 / 2 < r then f + 1
  else if f % 2 = 0 then f else f + 1

/-- `round(q, n)` in Python, on exact rationals. -/
def pyRound (q : ℚ) (n : ℕ) : ℚ :=
  (roundHalfToEven (q * 10 ^ n) : ℚ) / 10 ^ n

/-- Python's `x or 0` for a number `x` that is never `None`. -/
def pyOrZero (x : ℤ) : ℤ := if x = 0 then 0 else x

/-- Python's `x or None` for a rational-valued aggregate. -/
def pyOrNoneQ (x : ℚ) : Option ℚ := if x = 0 then none else some x

/-- Python's `x or None` for an integer-valued aggregate. -/
def pyOrNoneZ (x : ℤ) : Option ℤ := if x = 0 then none else some x

/-- `Count("id")` over a user's game records. -/
def agg_total_games (l : List GameRecord) : ℕ := l.length

/-- `Count("id", filter=Q(won=True))`. -/
def agg_won_games (l : List GameRecord) : ℕ := (l.filter (fun r => r.won)).length

/-- `Count("id", filter=Q(won=False))`. -/
def agg_lost_games (l : List GameRecord) : ℕ := (l.filter (fun r => r.won = false)).length

/-- `Count("id", filter=Q(status=<st>))`. -/
def agg_status_games (l : List GameRecord) (st : GameStatus) : ℕ :=
  (l.filter (fun r => r.status = st)).length

/-- `Sum("time_taken")` in seconds. -/
def agg_total_time (l : List GameRecord) : ℤ := (l.map GameRecord.time_taken).sum

/-- `Avg("time_taken")` in seconds, as an exact rational. -/
def agg_average_time (l : List GameRecord) : ℚ :=
  (agg_total_time l : ℚ) / (l.length : ℚ)

/-- `Min("time_taken")`; `none` on an empty queryset. -/
def agg_best_time (l : List GameRecord) : Option ℤ :=
  (l.map GameRecord.time_taken).min?

/-- `Sum("score")`. -/
def agg_total_score (l : List GameRecord) : ℤ := (l.map GameRecord.score).sum

/-- `Avg("score")` as an exact rational. -/
def agg_average_score (l : List GameRecord) : ℚ :=
  (agg_total_score l : ℚ) / (l.length : ℚ)

/-- `Max("score")`; `none` on an empty queryset. -/
def agg_best_score (l : List GameRecord) : Option ℤ :=
  (l.map GameRecord.score).max?

/-- `Sum("hints_used")`. -/
def agg_total_hints (l : List GameRecord) : ℤ := (l.map GameRecord.hints_used).sum

/-- `Sum("checks_used")`. -/
def agg_total_checks (l : List GameRecord) : ℤ := (l.map GameRecord.checks_used).sum

/-- `Sum("deletions")`. -/
def agg_total_deletions (l : List GameRecord) : ℤ := (l.map GameRecord.deletions).sum

/-- The fields of the `UserStats` model that `recalculate_from_games`
writes (src/app/user/models.py).  Nullable integer/float columns are
`Option`s; averages and the win rate are exact rationals. -/
structure UserStats where
  total_games : ℕ
  completed_games : ℕ
  abandoned_games : ℕ
  stopped_games : ℕ
  in_progress_games : ℕ
  won_games : ℕ
  lost_games : ℕ
  win_rate : ℚ
  total_time_seconds : ℤ
  average_time_seconds : Option ℚ
  best_time_seconds : Option ℤ
  total_score : ℤ
  average_score : Option ℚ
  best_score : Option ℤ
  total_hints_used : ℤ
  total_checks_used : ℤ
  total_deletions : ℤ
  deriving DecidableEq, Repr

/-- The reset-to-defaults branch of `recalculate_from_games`
(models.py lines 240-260). -/
def UserStats.resetDefaults : UserStats where
  total_games := 0
  completed_games := 0
  abandoned_games := 0
  stopped_games := 0
  in_progress_games := 0
  won_games := 0
  lost_games := 0
  win_rate := 0
  total_time_seconds := 0
  average_time_seconds := none
  best_time_seconds := none
  total_score := 0
  average_score := none
  best_score := none
  total_hints_used := 0
  total_checks_used := 0
  total_deletions := 0

/-- `UserStats.recalculate_from_games` (src/app/user/models.py lines
233-309) on the user's list of game records.  The `x or 0` / `x or None`
coercions and the `round(..., k)` calls of the Python code are kept as
written. -/
def recalculate_from_games (l : List GameRecord) : UserStats :=
  if l.isEmpty then UserStats.resetDefaults
  else
    let total_games := agg_total_games l
    let won_games := agg_won_games l
    { total_games := total_games
      won_games := won_games
      lost_games := agg_lost_games l
      completed_games := agg_status_games l GameStatus.completed
      abandoned_games := agg_status_games l GameStatus.abandoned
      stopped_games := agg_status_games l GameStatus.stopped
      in_progress_games := agg_status_games l GameStatus.in_progress
      win_rate :=
        if 0 < total_games then pyRound ((won_games : ℚ) / (total_games : ℚ)) 3 else 0
      total_time_seconds := pyOrZero (agg_total_time l)
      average_time_seconds := pyOrNoneQ (agg_average_time l)
      best_time_seconds :=
        match agg_best_time l with
        | none => none
        | some m => pyOrNoneZ m
      total_score := pyOrZero (agg_total_score l)
      average_score :=
        if agg_average_score l = 0 then none else some (pyRound (agg_average_score l) 2)
      best_score :=
        match agg_best_score l with
        | none => some 0
        | some m => some (pyOrZero m)
      total_hints_used := pyOrZero (agg_total_hints l)
      total_checks_used := pyOrZero (agg_total_checks l)
      total_deletions := pyOrZero (agg_total_deletions l) }

/-! ### Leaderboard endpoint (src/app/user/views.py lines 356-394) -/

/-- The `UserStats` columns the leaderboard reads, joined with the user's
`is_active` flag (`select_related("user")`). -/
structure LeaderRow where
  user_id : Nat
  username : String
  is_active : Bool
  total_games : ℕ
  won_games : ℕ
  completed_games : ℕ
  win_rate : ℚ
  total_score : ℤ
  best_score : ℤ
  deriving DecidableEq, Repr

/-- The `order_by("-total_score", "-best_score", "-win_rate",
"-completed_games")` sort key, as a lexicographic tuple. -/
def leaderKey (r : LeaderRow) : Lex (ℤ × Lex (ℤ × Lex (ℚ × ℕ))) :=
  toLex (r.total_score, toLex (r.best_score, toLex (r.win_rate, r.completed_games)))

/-- `a` sorts no later than `b` in the leaderboard's descending order. -/
def leaderOrder (a b : LeaderRow) : Prop := leaderKey b ≤ leaderKey a

instance : DecidableRel leaderOrder := fun a b =>
  inferInstanceAs (Decidable (leaderKey b ≤ leaderKey a))

instance : IsTotal LeaderRow leaderOrder :=
  ⟨fun a b => le_total (leaderKey b) (leaderKey a)⟩

instance : IsTrans LeaderRow leaderOrder :=
  ⟨fun _ _ _ hab hbc => le_trans hbc hab⟩

/-- The pure computation of `UserStatsViewSet.leaderboard`:
`limit = min(limit_param, 100)`, filter to active users with
`total_games > 0`, order by the descending key, take `limit` rows. -/
def leaderboard (rows : List LeaderRow) (limitParam : ℕ) : List LeaderRow :=
  let limit := min limitParam 100
  ((rows.filter (fun r => r.is_active && decide (0 < r.total_games))).insertionSort
    leaderOrder).take limit

/-! ### Cache interplay of GameRecord.save and the leaderboard endpoint
(src/app/game_record/models.py lines 192-202, src/app/user/views.py) -/

/-- The Django cache, restricted to leaderboard payloads, as an
association list from key strings to cached values. -/
def Cache : Type := List (String × List LeaderRow)

/-- `cache.get(key)`. -/
def cacheGet (c : Cache) (key : String) : Option (List LeaderRow) :=
  ((c : List (String × List LeaderRow)).find? (fun p => p.1 = key)).map (fun p => p.2)

/-- `cache.delete(key)`. -/
def cacheDelete (c : Cache) (key : String) : Cache :=
  (c : List (String × List LeaderRow)).filter (fun p => ¬ p.1 = key)

/-- `cache.set(key, value, timeout)` (the timeout is not modelled). -/
def cacheSet (c : Cache) (key : String) (v : List LeaderRow) : Cache :=
  (key, v) :: cacheDelete c key

/-- The cache deletions performed by `GameRecord.save`
(models.py lines 197-199): `cache.delete(f"user_stats_{user.id}")` and
`cache.delete("leaderboard")`. -/
def game_record_save_cache_effect (c : Cache) (user_id : Nat) : Cache :=
  cacheDelete (cacheDelete c ("user_stats_" ++ toString user_id)) "leaderboard"

/-- `UserStatsViewSet.leaderboard` (views.py lines 356-394) with its cache:
look up `f"leaderboard_{limit}"`, else compute and store it.  Returns the
response payload and the new cache. -/
def leaderboard_endpoint (c : Cache) (rows : List LeaderRow) (limitParam : ℕ) :
    List LeaderRow × Cache :=
  let limit := min limitParam 100
  let cache_key := "leaderboard_" ++ toString limit
  match cacheGet c cache_key with
  | some v => (v, c)
  | none =>
    let v := leaderboard rows limitParam
    (v, cacheSet c cache_key v)

/-! ### Digit-detection pipeline (src/app/sudoku/detection, tasks.py) -/

/-- An OpenCV matrix: height, width, and the pixel at each coordinate. -/
structure Img where
  h : ℕ
  w : ℕ
  px : ℕ → ℕ → ℕ

/-- A cv2 contour handle (its geometry is only seen through the abstract
`area`/`perimeter`/`approxPolyDP` operations of `CvEnv`). -/
abbrev Contour : Type := ℕ

/-- The external cv2 / numpy / ONNX operations the detection code calls.
`interp` gives the pixels `cv2.resize` produces for a requested size,
`warpPx` those of `cv2.warpPerspective` for a given source quadrilateral,
`predict` is the ONNX classifier: class index and its probability. -/
structure CvEnv where
  decode : List ℕ → Option Img
  interp : Img → ℕ → ℕ → ℕ → ℕ → ℕ
  grayOp : Img → Img
  blurOp : Img → Img
  threshOp : Img → Img
  findContours : Img → List Contour
  area : Contour → ℚ
  perimeter : Contour → ℚ
  approxPolyDP : Contour → ℚ → List (ℤ × ℤ)
  warpPx : Img → List (ℤ × ℤ) → ℕ → ℕ → ℕ → ℕ → ℕ
  grayPx : Img → ℕ → ℕ → ℕ
  predict : Img → ℕ × ℚ

/-- `cv2.resize(img, (w, h))`: the output has exactly the requested size. -/
def cvResize (env : CvEnv) (img : Img) (w hgt : ℕ) : Img :=
  { h := hgt, w := w, px := fun i j => env.interp img w hgt i j }

/-- `preprocess_image` (detection/utils.py lines 8-23): grayscale, Gaussian
blur, adaptive threshold. -/
def preprocess_image (env : CvEnv) (image : Img) : Img :=
  env.threshOp (env.blurOp (env.grayOp image))

/-- `get_biggest_contour` (detection/utils.py lines 26-47): the
largest-area contour of area above 50 whose polygonal approximation has 4
points; `none` models the empty `np.array([])`. -/
def get_biggest_contour (env : CvEnv) (contours : List Contour) :
    Option (List (ℤ × ℤ)) :=
  (contours.foldl
    (fun (acc : Option (List (ℤ × ℤ)) × ℚ) contour =>
      let (biggest, max_area) := acc
      let a := env.area contour
      if 50 < a then
        let approx := env.approxPolyDP contour (2 / 100 * env.perimeter contour)
        if approx.length = 4 ∧ max_area < a then (some approx, a) else (biggest, max_area)
      else (biggest, max_area))
    (none, 0)).1

/-- Index of the first minimum of a list (`np.argmin`). -/
def argminIdx (l : List ℤ) : ℕ :=
  (l.foldl
    (fun (acc : ℕ × ℕ × Option ℤ) v =>
      let (i, bi, bv) := acc
      match bv with
      | none => (i + 1, i, some v)
      | some b => if v < b then (i + 1, i, some v) else (i + 1, bi, some b))
    (0, 0, none)).2.1

/-- Index of the first maximum of a list (`np.argmax`). -/
def argmaxIdx (l : List ℤ) : ℕ :=
  (l.foldl
    (fun (acc : ℕ × ℕ × Option ℤ) v =>
      let (i, bi, bv) := acc
      match bv with
      | none => (i + 1, i, some v)
      | some b => if b < v then (i + 1, i, some v) else (i + 1, bi, some b))
    (0, 0, none)).2.1

/-- `reorder` (detection/utils.py lines 50-70): order the four corner
points as [top-left, top-right, bottom-left, bottom-right] by the
argmin/argmax of coordinate sums and differences. -/
def reorder (points : List (ℤ × ℤ)) : List (ℤ × ℤ) :=
  let add := points.map (fun p => p.1 + p.2)
  let diff := points.map (fun p => p.2 - p.1)
  [points.getD (argminIdx add) (0, 0),
   points.getD (argminIdx diff) (0, 0),
   points.getD (argmaxIdx diff) (0, 0),
   points.getD (argmaxIdx add) (0, 0)]

/-- `cv2.warpPerspective(img, matrix, (w, h))` where the matrix was built
from the reordered corner points. -/
def warpPerspective (env : CvEnv) (img : Img) (points : List (ℤ × ℤ)) (w hgt : ℕ) : Img :=
  { h := hgt, w := w, px := fun i j => env.warpPx img points w hgt i j }

/-- `cv2.cvtColor(img, COLOR_BGR2GRAY)`: same size, pixel-wise. -/
def cvtGray (env : CvEnv) (img : Img) : Img :=
  { h := img.h, w := img.w, px := fun i j => env.grayPx img i j }

/-- `np.vsplit(image, 9)`: nine equal horizontal bands; `none` models the
exception when the height is not divisible by 9. -/
def vsplit9 (img : Img) : Option (List Img) :=
  if img.h % 9 = 0 then
    some ((List.range 9).map (fun r =>
      { h := img.h / 9, w := img.w, px := fun i j => img.px (r * (img.h / 9) + i) j }))
  else none

/-- `np.hsplit(row, 9)`: nine equal vertical bands. -/
def hsplit9 (img : Img) : Option (List Img) :=
  if img.w % 9 = 0 then
    some ((List.range 9).map (fun c =>
      { h := img.h, w := img.w / 9, px := fun i j => img.px i (c * (img.w / 9) + j) }))
  else none

/-- The nested loop of `split_into_boxes`: for each row band, hsplit it
and append its boxes in order; an hsplit failure aborts. -/
def splitRows : List Img → Option (List Img)
  | [] => some []
  | row :: rest =>
    match hsplit9 row, splitRows rest with
    | some cols, some acc => some (cols ++ acc)
    | _, _ => none

/-- `split_into_boxes` (detection/utils.py lines 73-88): vsplit into 9
rows, hsplit each row into 9, append row by row. -/
def split_into_boxes (image : Img) : Option (List Img) :=
  match vsplit9 image with
  | none => none
  | some rows => splitRows rows

/-- The box of row `r`, column `c` of a grid image, as `split_into_boxes`
carves it. -/
def boxAt (image : Img) (r c : ℕ) : Img :=
  { h := image.h / 9, w := image.w / 9,
    px := fun i j => image.px (r * (image.h / 9) + i) (c * (image.w / 9) + j) }

/-- `detect_digits` (detection/digits_recognition.py lines 9-49): resize
each box to 28×28, classify, keep the class when its probability exceeds
0.8, else 0.  The grayscale/normalise/reshape steps are part of the
abstract `predict`. -/
def detect_digits (env : CvEnv) (digits : List Img) : List ℕ :=
  digits.map (fun image =>
    let img := cvResize env image 28 28
    let prediction := env.predict img
    if 8 / 10 < prediction.2 then prediction.1 else 0)

/-- The dictionary returned by the `detect_sudoku_digits` task. -/
inductive DetectionResult
  | success (message : String) (grid : String)
  | errorResult (message : String)
  deriving DecidableEq, Repr

/-- `IMG_WIDTH, IMG_HEIGHT = 450, 450` (tasks.py line 21). -/
def IMG_WIDTH : ℕ := 450

/-- See `IMG_WIDTH`. -/
def IMG_HEIGHT : ℕ := 450

/-- `detect_sudoku_digits` (src/app/sudoku/tasks.py lines 90-163): decode,
resize to 450×450, threshold, find the biggest quadrilateral contour,
perspective-correct, grayscale, split into 81 boxes, classify each box and
join the digits into the `grid` string.  (The WebSocket detection-status
pushes of the task are independent of the result and not modelled here.) -/
def detect_sudoku_digits (env : CvEnv) (image_data : List ℕ) : DetectionResult :=
  match env.decode image_data with
  | none => DetectionResult.errorResult "Failed to decode image"
  | some decoded =>
    let image := cvResize env decoded IMG_WIDTH IMG_HEIGHT
    let thresh := preprocess_image env image
    let contours := env.findContours thresh
    match get_biggest_contour env contours with
    | none =>
      DetectionResult.errorResult "No suitable sudoku grid contour found in the image"
    | some biggest_contour =>
      let points := reorder biggest_contour
      let warped := warpPerspective env image points IMG_WIDTH IMG_HEIGHT
      let gray := cvtGray env warped
      match split_into_boxes gray with
      | none => DetectionResult.errorResult "Digit detection failed: split error"
      | some boxes =>
        let digits := detect_digits env boxes
        DetectionResult.success "Digit detection completed successfully"
          (String.join (digits.map (fun d => toString d)))

/-! ### Shared helper lemmas -/

/-- A status-change pair: the old and new status of any row whose status
differs between two states of the sudoku table (compared positionally;
every write is a `map` over the table, so positions line up). -/
def changedPairs (l l' : List SudokuRec) : List (SudokuStatus × SudokuStatus) :=
  (l.zip l').filterMap (fun q =>
    if q.1.status = q.2.status then none else some (q.1.status, q.2.status))

/-- Status changes between two database states. -/
def statusChanges (db db' : Db) : List (SudokuStatus × SudokuStatus) :=
  changedPairs db.sudokus db'.sudokus

theorem changedPairs_self (l : List SudokuRec) : changedPairs l l = [] := by
  induction l with
  | nil => rfl
  | cons a t ih =>
    simp only [changedPairs, List.zip_cons_cons, List.filterMap_cons, if_pos rfl]
    exact ih

theorem mem_changedPairs_map {l : List SudokuRec} {f : SudokuRec → SudokuRec}
    {p : SudokuStatus × SudokuStatus} (hp : p ∈ changedPairs l (l.map f)) :
    ∃ t ∈ l, p = (t.status, (f t).status) ∧ t.status ≠ (f t).status := by
  induction l with
  | nil => simp [changedPairs] at hp
  | cons a t ih =>
    simp only [changedPairs, List.map_cons, List.zip_cons_cons, List.filterMap_cons] at hp
    by_cases h : a.status = (f a).status
    · rw [if_pos h] at hp
      obtain ⟨u, hu, h1, h2⟩ := ih hp
      exact ⟨u, List.mem_cons_of_mem _ hu, h1, h2⟩
    · rw [if_neg h] at hp
      rcases List.mem_cons.1 hp with hq | hq
      · exact ⟨a, List.mem_cons_self _ _, hq, h⟩
      · obtain ⟨u, hu, h1, h2⟩ := ih hq
        exact ⟨u, List.mem_cons_of_mem _ hu, h1, h2⟩

theorem eq_of_mem_nodup_ids {l : List SudokuRec}
    (hnd : (l.map SudokuRec.id).Nodup) {a b : SudokuRec}
    (ha : a ∈ l) (hb : b ∈ l) (hid : a.id = b.id) : a = b :=
  List.inj_on_of_nodup_map hnd ha hb hid

theorem mem_get_queryset {db : Db} {r : Option Nat} {d : List String} {t : SudokuRec}
    (ht : t ∈ get_queryset db r d) : t ∈ db.sudokus ∧ t.user = r := by
  unfold get_queryset at ht
  split at ht
  · obtain ⟨h1, h2⟩ := List.mem_filter.1 ht
    exact ⟨h1, by simpa using h2⟩
  · obtain ⟨h0, _⟩ := List.mem_filter.1 ht
    obtain ⟨h1, h2⟩ := List.mem_filter.1 h0
    exact ⟨h1, by simpa using h2⟩

theorem get_object_some {db : Db} {r : Option Nat} {d : List String} {pk : Nat}
    {s : SudokuRec} (h : get_object db r d pk = some s) :
    s ∈ db.sudokus ∧ s.user = r ∧ s.id = pk := by
  have hmem := List.mem_of_find?_eq_some h
  have hpred := List.find?_some h
  obtain ⟨h1, h2⟩ := mem_get_queryset hmem
  exact ⟨h1, h2, by simpa using hpred⟩

theorem get_object_none_of_other_owner {db : Db} {r : Option Nat} {d : List String}
    {pk : Nat} {s : SudokuRec} (hnd : (db.sudokus.map SudokuRec.id).Nodup)
    (hs : s ∈ db.sudokus) (hid : s.id = pk) (hu : s.user ≠ r) :
    get_object db r d pk = none := by
  cases hobj : get_object db r d pk with
  | none => rfl
  | some t =>
    obtain ⟨ht, htu, htid⟩ := get_object_some hobj
    have : t = s := eq_of_mem_nodup_ids hnd ht hs (htid.trans hid.symm)
    exact absurd (this ▸ htu) hu

theorem find_save_list {l : List SudokuRec} {n : Nat} {s2 t : SudokuRec}
    (ht : t ∈ l) (htid : t.id = n) (hs2 : s2.id = n) :
    (l.map (fun u => if u.id = n then s2 else u)).find? (fun s => s.id = n)
      = some s2 := by
  induction l with
  | nil => cases ht
  | cons a l ih =>
    rcases List.mem_cons.1 ht with rfl | ha
    · simp only [List.map_cons, if_pos htid]
      rw [List.find?_cons_of_pos _ (by simpa using hs2)]
    · by_cases h : a.id = n
      · simp only [List.map_cons, if_pos h]
        rw [List.find?_cons_of_pos _ (by simpa using hs2)]
      · simp only [List.map_cons, if_neg h]
        rw [List.find?_cons_of_neg _ (by simpa using h)]
        exact ih ha

theorem find_double_save {l : List SudokuRec} {n : Nat} {s1 s2 t : SudokuRec}
    (ht : t ∈ l) (htid : t.id = n) (h1 : s1.id = n) (h2 : s2.id = n) :
    ((l.map (fun u => if u.id = n then s1 else u)).map
      (fun u => if u.id = n then s2 else u)).find? (fun s => s.id = n) = some s2 :=
  find_save_list (List.mem_map.2 ⟨t, ht, by rw [if_pos htid]⟩) h1 h2

/-- Foldl-append accumulates string lengths. -/
theorem foldl_append_length (l : List String) (acc : String) :
    (l.foldl (fun r s => r ++ s) acc).length = acc.length + (l.map String.length).sum := by
  induction l generalizing acc with
  | nil => simp
  | cons x xs ih =>
    simp only [List.foldl_cons, List.map_cons, List.sum_cons, ih, String.length_append]
    omega

theorem string_join_length (l : List String) :
    (String.join l).length = (l.map String.length).sum := by
  have h := foldl_append_length l ""
  simpa [String.join] using h

theorem toString_digit_length {d : ℕ} (hd : d ≤ 9) : (toString d).length = 1 := by
  interval_cases d <;> rfl

theorem pyOrZero_eq (x : ℤ) : pyOrZero x = x := by
  unfold pyOrZero
  split <;> omega

/-! ### C3 -/

/-- C3: a `Sudoku.grid` or `SudokuSolution.grid` value that passes model
validation (`max_length=81` together with `MinLengthValidator(81)`) is a
string of exactly 81 characters. -/
theorem grid_validation_exact_81 :
    (∀ g : String, sudoku_grid_clean g = true → g.length = 81) ∧
    (∀ g : String, solution_grid_clean g = true → g.length = 81) := by
  constructor <;>
    · intro g hg
      simp only [sudoku_grid_clean, solution_grid_clean, Bool.and_eq_true,
        decide_eq_true_eq] at hg
      omega

/-- An 81-character grid, witnessing that the validators are satisfiable. -/
def gridEx : String :=
  String.mk (List.replicate 81 '.')

theorem grid_validation_exact_81_witness :
    sudoku_grid_clean gridEx = true ∧ gridEx.length = 81 :=
  ⟨by decide, grid_validation_exact_81.1 gridEx (by decide)⟩

/-! ### C6 -/

/-- C6: `update_sudoku_status` writes back exactly the given sudoku with
only its status replaced (id, user, title, difficulty, grid and task_id
are untouched, the solutions table is untouched, and the sudoku table is
updated at that primary key only), and it sends exactly one WebSocket
group message, to group `sudoku_status_<id>`, carrying the sudoku's id and
the new status. -/
theorem update_sudoku_status_frame_and_message (db : Db) (s : SudokuRec)
    (st : SudokuStatus) :
    (update_sudoku_status db s st).2.1.id = s.id ∧
    (update_sudoku_status db s st).2.1.user = s.user ∧
    (update_sudoku_status db s st).2.1.title = s.title ∧
    (update_sudoku_status db s st).2.1.difficulty = s.difficulty ∧
    (update_sudoku_status db s st).2.1.grid = s.grid ∧
    (update_sudoku_status db s st).2.1.task_id = s.task_id ∧
    (update_sudoku_status db s st).2.1.status = st ∧
    (update_sudoku_status db s st).1 = db.saveSudoku (update_sudoku_status db s st).2.1 ∧
    (update_sudoku_status db s st).1.solutions = db.solutions ∧
    (update_sudoku_status db s st).1.sudokus =
      db.sudokus.map (fun t => if t.id = s.id then (update_sudoku_status db s st).2.1 else t) ∧
    (update_sudoku_status db s st).2.2 =
      [{ group := "sudoku_status_" ++ toString s.id, sudoku_id := s.id, status := st }] :=
  ⟨rfl, rfl, rfl, rfl, rfl, rfl, rfl, rfl, rfl, rfl, rfl⟩

/-! ### C9 -/

/-- C9: `calculate_score` is 0 unless the game is completed and won, and
otherwise `max(0, 1000 − 100·hints − 50·checks − 5·deletions − 15·minutes)`
(minutes by floor division); and a record persisted by `save` with status
completed has its score overwritten with `calculate_score` and, having
passed `full_clean`, that score lies between 0 and 1000. -/
theorem calculate_score_spec_and_saved_bounds :
    (∀ r : GameRecord,
      r.calculate_score =
        if r.status = GameStatus.completed ∧ r.won then
          max 0 (1000 - 100 * r.hints_used - 50 * r.checks_used - 5 * r.deletions
            - 15 * Int.fdiv r.time_taken 60)
        else 0) ∧
    (∀ r r' : GameRecord, r.save = some r' → r'.status = GameStatus.completed →
      r'.score = r.calculate_score ∧ 0 ≤ r'.score ∧ r'.score ≤ 1000) := by
  constructor
  · intro r
    by_cases hc : r.status = GameStatus.completed ∧ r.won
    · have h1 : ¬ (¬ r.status = GameStatus.completed ∨ ¬ r.won = true) := by
        push_neg
        exact ⟨hc.1, hc.2⟩
      unfold GameRecord.calculate_score
      rw [if_neg h1, if_pos hc, max_comm]
      ring_nf
    · have h1 : ¬ r.status = GameStatus.completed ∨ ¬ r.won = true := by
        by_contra hno
        push_neg at hno
        exact hc ⟨hno.1, hno.2⟩
      unfold GameRecord.calculate_score
      rw [if_pos h1, if_neg hc]
  · intro r r' hsave hcomp
    unfold GameRecord.save at hsave
    by_cases hcs : r.status = GameStatus.completed
    · rw [if_pos hcs] at hsave
      by_cases hok : ({ r with score := r.calculate_score } : GameRecord).full_clean_ok = true
      · rw [if_pos hok] at hsave
        have hr' := Option.some.inj hsave
        subst hr'
        simp only [GameRecord.full_clean_ok, Bool.and_eq_true, decide_eq_true_eq] at hok
        exact ⟨rfl, hok.1.1.1.1.1.1.1.1.1.1, hok.1.1.1.1.1.1.1.1.1.2⟩
      · rw [if_neg hok] at hsave
        cases hsave
    · rw [if_neg hcs] at hsave
      by_cases hok : r.full_clean_ok = true
      · rw [if_pos hok] at hsave
        have hr' := Option.some.inj hsave
        subst hr'
        exact absurd hcomp hcs
      · rw [if_neg hok] at hsave
        cases hsave

/-- A completed, won game used to witness the saved-score bounds. -/
def gameEx : GameRecord where
  user := 1
  score := 0
  hints_used := 1
  checks_used := 1
  deletions := 2
  time_taken := 125
  won := true
  status := GameStatus.completed
  original_puzzle := gridEx
  solution := gridEx
  final_state := gridEx

theorem calculate_score_spec_and_saved_bounds_witness :
    gameEx.save = some { gameEx with score := 810 } ∧
    ({ gameEx with score := 810 } : GameRecord).status = GameStatus.completed ∧
    (({ gameEx with score := 810 } : GameRecord).score = gameEx.calculate_score ∧
      0 ≤ ({ gameEx with score := 810 } : GameRecord).score ∧
      ({ gameEx with score := 810 } : GameRecord).score ≤ 1000) :=
  ⟨by decide, by decide,
    calculate_score_spec_and_saved_bounds.2 gameEx { gameEx with score := 810 }
      (by decide) (by decide)⟩

/-! ### C1 -/

theorem changed_of_mem_one_save {l : List SudokuRec} {n : Nat} {a : SudokuRec}
    {p : SudokuStatus × SudokuStatus}
    (hp : p ∈ changedPairs l (l.map (fun t => if t.id = n then a else t))) :
    ∃ t ∈ l, t.id = n ∧ p = (t.status, a.status) ∧ t.status ≠ a.status := by
  obtain ⟨t, htl, hpair, hneq⟩ := mem_changedPairs_map hp
  by_cases hti : t.id = n
  · rw [if_pos hti] at hpair hneq
    exact ⟨t, htl, hti, hpair, hneq⟩
  · rw [if_neg hti] at hneq
    exact absurd rfl hneq

theorem changed_of_mem_two_save {l : List SudokuRec} {n : Nat} {a b : SudokuRec}
    {p : SudokuStatus × SudokuStatus}
    (hp : p ∈ changedPairs l
      ((l.map (fun t => if t.id = n then a else t)).map
        (fun t => if t.id = n then b else t)))
    (ha : a.id = n) :
    ∃ t ∈ l, t.id = n ∧ p = (t.status, b.status) ∧ t.status ≠ b.status := by
  rw [List.map_map] at hp
  obtain ⟨t, htl, hpair, hneq⟩ := mem_changedPairs_map hp
  by_cases hti : t.id = n
  · rw [Function.comp_apply, if_pos hti, if_pos ha] at hpair hneq
    exact ⟨t, htl, hti, hpair, hneq⟩
  · rw [Function.comp_apply, if_neg hti, if_neg hti] at hneq
    exact absurd rfl hneq

/-- A sudoku already in the terminal status Failed. -/
def sudokuFailedEx : SudokuRec where
  id := 1
  user := none
  title := "t"
  difficulty := "Easy"
  grid := gridEx
  status := SudokuStatus.failed
  task_id := none

/-- A database holding only `sudokuFailedEx`. -/
def dbFailedEx : Db where
  sudokus := [sudokuFailedEx]
  solutions := []

/-- C1 counterexample: the solve view accepts a sudoku whose status is the
terminal status Failed and moves it to Pending, so Pending is entered from
a status other than Created and a sudoku leaves a terminal status. -/
theorem solve_moves_failed_to_pending :
    sudokuFailedEx.status = SudokuStatus.failed ∧
    (SudokuViewSet.solve dbFailedEx none [] 1 7).1.sudokus.map SudokuRec.status
      = [SudokuStatus.pending] ∧
    (SudokuViewSet.solve dbFailedEx none [] 1 7).2.2 = Resp.solveStarted 1 7 := by
  decide

/-- C1 amended: the status machine actually enforced is: the solve view
moves a sudoku to Pending exactly from Created, Failed or Aborted; the
abort view moves it to Aborted exactly from Pending or Running; the
delete-solution view moves it from Completed back to Created; the
solution and status views change no status; and the solve task first sets
Running regardless of the current status and then ends in Invalid or
Completed (its WebSocket trace is Running followed by Invalid or
Completed).  Completed, Failed and Aborted are therefore not terminal. -/
theorem sudoku_status_transitions (db : Db) (requester : Option Nat)
    (difficulties : List String) (pk taskId : Nat)
    (check : String → Bool) (solveFn : String → String)
    (hnd : (db.sudokus.map SudokuRec.id).Nodup) :
    (∀ p ∈ statusChanges db (SudokuViewSet.solve db requester difficulties pk taskId).1,
      (p.1 = SudokuStatus.created ∨ p.1 = SudokuStatus.failed ∨ p.1 = SudokuStatus.aborted)
        ∧ p.2 = SudokuStatus.pending) ∧
    (∀ p ∈ statusChanges db (SudokuViewSet.abort db requester difficulties pk).1,
      (p.1 = SudokuStatus.running ∨ p.1 = SudokuStatus.pending)
        ∧ p.2 = SudokuStatus.aborted) ∧
    (∀ p ∈ statusChanges db (SudokuViewSet.delete_solution db requester difficulties pk).1,
      p.1 = SudokuStatus.completed ∧ p.2 = SudokuStatus.created) ∧
    statusChanges db (SudokuViewSet.solution db requester difficulties pk).1 = [] ∧
    statusChanges db (SudokuViewSet.status db requester difficulties pk).1 = [] ∧
    (∀ p ∈ statusChanges db (solve_sudoku db check solveFn pk).1,
      p.2 = SudokuStatus.invalid ∨ p.2 = SudokuStatus.completed) ∧
    ((solve_sudoku db check solveFn pk).2.1.map StatusMsg.status = [] ∨
      (solve_sudoku db check solveFn pk).2.1.map StatusMsg.status
        = [SudokuStatus.running, SudokuStatus.invalid] ∨
      (solve_sudoku db check solveFn pk).2.1.map StatusMsg.status
        = [SudokuStatus.running, SudokuStatus.completed]) := by
  refine ⟨?_, ?_, ?_, ?_, ?_, ?_, ?_⟩
  · -- solve view
    intro p hp
    cases hobj : get_object db requester difficulties pk with
    | none =>
      rw [SudokuViewSet.solve, hobj] at hp
      rw [statusChanges, changedPairs_self] at hp
      cases hp
    | some sudoku =>
      obtain ⟨hmem, -, -⟩ := get_object_some hobj
      rw [SudokuViewSet.solve, hobj] at hp
      simp only [update_sudoku_status, Db.saveSudoku, statusChanges] at hp
      split at hp
      · rw [changedPairs_self] at hp
        cases hp
      · next hguard =>
        obtain ⟨t, htl, hti, hpair, -⟩ := changed_of_mem_two_save hp rfl
        have ht : t = sudoku := eq_of_mem_nodup_ids hnd htl hmem hti
        subst ht
        rw [not_not] at hguard
        subst hpair
        simpa using hguard
  · -- abort view
    intro p hp
    cases hobj : get_object db requester difficulties pk with
    | none =>
      rw [SudokuViewSet.abort, hobj] at hp
      rw [statusChanges, changedPairs_self] at hp
      cases hp
    | some sudoku =>
      obtain ⟨hmem, -, -⟩ := get_object_some hobj
      rw [SudokuViewSet.abort, hobj] at hp
      simp only [update_sudoku_status, Db.saveSudoku, statusChanges] at hp
      split at hp
      · rw [changedPairs_self] at hp
        cases hp
      · split at hp
        · rw [changedPairs_self] at hp
          cases hp
        · next hguard =>
          obtain ⟨t, htl, hti, hpair, -⟩ := changed_of_mem_two_save hp rfl
          have ht : t = sudoku := eq_of_mem_nodup_ids hnd htl hmem hti
          subst ht
          rw [not_not] at hguard
          subst hpair
          simpa [or_comm] using hguard
  · -- delete_solution view
    intro p hp
    cases hobj : get_object db requester difficulties pk with
    | none =>
      rw [SudokuViewSet.delete_solution, hobj] at hp
      rw [statusChanges, changedPairs_self] at hp
      cases hp
    | some sudoku =>
      obtain ⟨hmem, -, -⟩ := get_object_some hobj
      simp only [SudokuViewSet.delete_solution, hobj] at hp
      split at hp
      · simp [statusChanges, changedPairs_self] at hp
      · split at hp
        · simp [statusChanges, changedPairs_self] at hp
        · next hguard =>
          simp only [update_sudoku_status, Db.saveSudoku, statusChanges] at hp
          obtain ⟨t, htl, hti, hpair, -⟩ := changed_of_mem_one_save hp
          have ht : t = sudoku := eq_of_mem_nodup_ids hnd htl hmem hti
          subst ht
          rw [not_not] at hguard
          subst hpair
          exact ⟨hguard, rfl⟩
  · -- solution view changes nothing
    cases hobj : get_object db requester difficulties pk with
    | none =>
      simp [SudokuViewSet.solution, hobj, statusChanges, changedPairs_self]
    | some sudoku =>
      simp only [SudokuViewSet.solution, hobj]
      split
      · simp [statusChanges, changedPairs_self]
      · split <;> simp [statusChanges, changedPairs_self]
  · -- status view changes nothing
    cases hobj : get_object db requester difficulties pk with
    | none =>
      rw [SudokuViewSet.status, hobj, statusChanges, changedPairs_self]
    | some sudoku =>
      rw [SudokuViewSet.status, hobj, statusChanges, changedPairs_self]
  · -- the task's database transitions end in Invalid or Completed
    intro p hp
    cases hfind : db.sudokus.find? (fun s => s.id = pk) with
    | none =>
      rw [solve_sudoku, hfind] at hp
      rw [statusChanges, changedPairs_self] at hp
      cases hp
    | some sudoku =>
      have hmem := List.mem_of_find?_eq_some hfind
      simp only [solve_sudoku, hfind, update_sudoku_status, Db.saveSudoku,
        statusChanges] at hp
      split at hp
      · obtain ⟨t, htl, hti, hpair, -⟩ := changed_of_mem_two_save hp rfl
        subst hpair
        left
        rfl
      · split at hp
        · obtain ⟨t, htl, hti, hpair, -⟩ := changed_of_mem_two_save hp rfl
          subst hpair
          left
          rfl
        · obtain ⟨t, htl, hti, hpair, -⟩ := changed_of_mem_two_save hp rfl
          subst hpair
          right
          rfl
  · -- the task's WebSocket trace
    cases hfind : db.sudokus.find? (fun s => s.id = pk) with
    | none =>
      simp only [solve_sudoku, hfind]
      left
      rfl
    | some sudoku =>
      simp only [solve_sudoku, hfind, update_sudoku_status, Db.saveSudoku]
      split
      · right; left; rfl
      · split
        · right; left; rfl
        · right; right; rfl

theorem sudoku_status_transitions_witness :
    (dbFailedEx.sudokus.map SudokuRec.id).Nodup ∧
    statusChanges dbFailedEx
      (SudokuViewSet.status dbFailedEx none [] 1).1 = [] :=
  ⟨by decide,
    (sudoku_status_transitions dbFailedEx none [] 1 7 (fun _ => true) id
      (by decide)).2.2.2.2.1⟩

/-! ### C2 -/

/-- C2: for a run of `solve_sudoku` on an existing sudoku: if the
consistency check fails on the input grid, or on the grid after solving,
the sudoku's status is set to Invalid, the solutions table is unchanged,
and the task returns status "failed"; if both checks pass, exactly one
`SudokuSolution` row holding the solver's output grid is appended and the
status is set to Completed. -/
theorem solve_sudoku_consistency (db : Db) (check : String → Bool)
    (solveFn : String → String) (sudoku_id : Nat) (sudoku : SudokuRec)
    (hfind : db.sudokus.find? (fun s => s.id = sudoku_id) = some sudoku) :
    (check sudoku.grid = false →
      (solve_sudoku db check solveFn sudoku_id).1.sudokus.find? (fun s => s.id = sudoku_id)
          = some { sudoku with status := SudokuStatus.invalid } ∧
      (solve_sudoku db check solveFn sudoku_id).1.solutions = db.solutions ∧
      (solve_sudoku db check solveFn sudoku_id).2.2
          = some { status := "failed", error := some "Inconsistent Sudoku",
                   solution := none }) ∧
    (check sudoku.grid = true → check (solveFn sudoku.grid) = false →
      (solve_sudoku db check solveFn sudoku_id).1.sudokus.find? (fun s => s.id = sudoku_id)
          = some { sudoku with status := SudokuStatus.invalid } ∧
      (solve_sudoku db check solveFn sudoku_id).1.solutions = db.solutions ∧
      (solve_sudoku db check solveFn sudoku_id).2.2
          = some { status := "failed", error := some "Inconsistent Sudoku solution",
                   solution := none }) ∧
    (check sudoku.grid = true → check (solveFn sudoku.grid) = true →
      (solve_sudoku db check solveFn sudoku_id).1.sudokus.find? (fun s => s.id = sudoku_id)
          = some { sudoku with status := SudokuStatus.completed } ∧
      (solve_sudoku db check solveFn sudoku_id).1.solutions
          = db.solutions ++ [{ sudoku_id := sudoku_id, grid := solveFn sudoku.grid }] ∧
      (solve_sudoku db check solveFn sudoku_id).2.2
          = some { status := "completed", error := none, solution := some sudoku_id }) := by
  have hid : sudoku.id = sudoku_id := by simpa using List.find?_some hfind
  have hmem : sudoku ∈ db.sudokus := List.mem_of_find?_eq_some hfind
  refine ⟨?_, ?_, ?_⟩
  · intro hcheck
    refine ⟨?_, ?_, ?_⟩ <;>
      simp only [solve_sudoku, hfind, update_sudoku_status, Db.saveSudoku, hcheck,
        Bool.false_eq_true, not_false_eq_true, if_true, ite_true]
    · rw [← hid]
      exact find_double_save hmem rfl rfl rfl
  · intro hcheck hcheck2
    refine ⟨?_, ?_, ?_⟩ <;>
      simp only [solve_sudoku, hfind, update_sudoku_status, Db.saveSudoku, hcheck, hcheck2,
        Bool.false_eq_true, not_true_eq_false, not_false_eq_true, if_true, if_false,
        ite_true, ite_false]
    · rw [← hid]
      exact find_double_save hmem rfl rfl rfl
  · intro hcheck hcheck2
    refine ⟨?_, ?_, ?_⟩ <;>
      simp only [solve_sudoku, hfind, update_sudoku_status, Db.saveSudoku, hcheck, hcheck2,
        not_true_eq_false, if_false, ite_false]
    · rw [← hid]
      exact find_double_save hmem rfl rfl rfl

/-- A freshly created sudoku in a one-row database, used as the concrete
run of the solve task. -/
def sudokuCreatedEx : SudokuRec where
  id := 1
  user := none
  title := "t"
  difficulty := "Easy"
  grid := gridEx
  status := SudokuStatus.created
  task_id := none

/-- A database holding only `sudokuCreatedEx`. -/
def dbCreatedEx : Db where
  sudokus := [sudokuCreatedEx]
  solutions := []

theorem solve_sudoku_consistency_witness :
    dbCreatedEx.sudokus.find? (fun s => s.id = 1) = some sudokuCreatedEx ∧
    (fun _ : String => true) sudokuCreatedEx.grid = true ∧
    ((solve_sudoku dbCreatedEx (fun _ => true) (fun _ => gridEx) 1).1.sudokus.find?
        (fun s => s.id = 1)
      = some { sudokuCreatedEx with status := SudokuStatus.completed } ∧
    (solve_sudoku dbCreatedEx (fun _ => true) (fun _ => gridEx) 1).1.solutions
      = dbCreatedEx.solutions
        ++ [{ sudoku_id := 1, grid := (fun _ : String => gridEx) sudokuCreatedEx.grid }] ∧
    (solve_sudoku dbCreatedEx (fun _ => true) (fun _ => gridEx) 1).2.2
      = some { status := "completed", error := none, solution := some 1 }) :=
  ⟨by decide, rfl,
    (solve_sudoku_consistency dbCreatedEx (fun _ => true) (fun _ => gridEx) 1
      sudokuCreatedEx (by decide)).2.2 rfl rfl⟩

/-! ### C8 -/

/-- A sudoku owned by user 1. -/
def sudokuOwnedEx : SudokuRec where
  id := 1
  user := some 1
  title := "t"
  difficulty := "Easy"
  grid := gridEx
  status := SudokuStatus.created
  task_id := none

/-- A database holding only `sudokuOwnedEx`. -/
def dbOwnedEx : Db where
  sudokus := [sudokuOwnedEx]
  solutions := []

/-- C8 counterexample: the response is not identical for owners and
non-owners.  `_check_sudoku_ownership`'s 403 is indeed dead, but
`get_object` draws from a queryset filtered to the requester's own
sudokus, so the owner of sudoku 1 gets its status while another user gets
404. -/
theorem ownership_responses_differ :
    sudokuOwnedEx.user = some 1 ∧
    (SudokuViewSet.status dbOwnedEx (some 1) [] 1).2.2
      = Resp.statusResp SudokuStatus.created ∧
    (SudokuViewSet.status dbOwnedEx (some 2) [] 1).2.2 = Resp.notFound ∧
    (SudokuViewSet.status dbOwnedEx (some 2) [] 1).2.2
      ≠ (SudokuViewSet.status dbOwnedEx (some 1) [] 1).2.2 := by
  decide

/-- C8 amended: the 403 Forbidden response built by
`_check_sudoku_ownership` is never returned by any of the five detail
actions (the construction is dead code), but non-owners do not proceed as
owners: `get_object` searches a queryset filtered to the requester's
sudokus, so a detail request for a sudoku whose owner differs from the
requester returns 404 Not Found. -/
theorem ownership_403_dead_nonowner_404 (db : Db) (requester : Option Nat)
    (difficulties : List String) (pk taskId : Nat)
    (hnd : (db.sudokus.map SudokuRec.id).Nodup) :
    ((SudokuViewSet.solve db requester difficulties pk taskId).2.2
        ≠ Resp.forbiddenOwnership) ∧
    ((SudokuViewSet.abort db requester difficulties pk).2.2 ≠ Resp.forbiddenOwnership) ∧
    ((SudokuViewSet.solution db requester difficulties pk).2.2
        ≠ Resp.forbiddenOwnership) ∧
    ((SudokuViewSet.delete_solution db requester difficulties pk).2.2
        ≠ Resp.forbiddenOwnership) ∧
    ((SudokuViewSet.status db requester difficulties pk).2.2 ≠ Resp.forbiddenOwnership) ∧
    (∀ s ∈ db.sudokus, s.id = pk → s.user ≠ requester →
      (SudokuViewSet.solve db requester difficulties pk taskId).2.2 = Resp.notFound ∧
      (SudokuViewSet.abort db requester difficulties pk).2.2 = Resp.notFound ∧
      (SudokuViewSet.solution db requester difficulties pk).2.2 = Resp.notFound ∧
      (SudokuViewSet.delete_solution db requester difficulties pk).2.2 = Resp.notFound ∧
      (SudokuViewSet.status db requester difficulties pk).2.2 = Resp.notFound) := by
  refine ⟨?_, ?_, ?_, ?_, ?_, ?_⟩
  · cases hobj : get_object db requester difficulties pk with
    | none => simp [SudokuViewSet.solve, hobj]
    | some sudoku =>
      simp only [SudokuViewSet.solve, hobj]
      split <;> simp [update_sudoku_status]
  · cases hobj : get_object db requester difficulties pk with
    | none => simp [SudokuViewSet.abort, hobj]
    | some sudoku =>
      simp only [SudokuViewSet.abort, hobj]
      split
      · simp
      · split <;> simp [update_sudoku_status]
  · cases hobj : get_object db requester difficulties pk with
    | none => simp [SudokuViewSet.solution, hobj]
    | some sudoku =>
      simp only [SudokuViewSet.solution, hobj]
      split
      · simp
      · split <;> simp
  · cases hobj : get_object db requester difficulties pk with
    | none => simp [SudokuViewSet.delete_solution, hobj]
    | some sudoku =>
      simp only [SudokuViewSet.delete_solution, hobj]
      split
      · simp
      · split <;> simp [update_sudoku_status]
  · cases hobj : get_object db requester difficulties pk with
    | none => simp [SudokuViewSet.status, hobj]
    | some sudoku => simp [SudokuViewSet.status, hobj]
  · intro s hs hsid hsu
    have hobj : get_object db requester difficulties pk = none :=
      get_object_none_of_other_owner hnd hs hsid hsu
    exact ⟨by simp [SudokuViewSet.solve, hobj], by simp [SudokuViewSet.abort, hobj],
      by simp [SudokuViewSet.solution, hobj],
      by simp [SudokuViewSet.delete_solution, hobj],
      by simp [SudokuViewSet.status, hobj]⟩

theorem ownership_403_dead_nonowner_404_witness :
    (dbOwnedEx.sudokus.map SudokuRec.id).Nodup ∧
    sudokuOwnedEx ∈ dbOwnedEx.sudokus ∧
    sudokuOwnedEx.id = 1 ∧
    sudokuOwnedEx.user ≠ some 2 ∧
    ((SudokuViewSet.status dbOwnedEx (some 2) [] 1).2.2 ≠ Resp.forbiddenOwnership) ∧
    (SudokuViewSet.status dbOwnedEx (some 2) [] 1).2.2 = Resp.notFound :=
  ⟨by decide, by decide, by decide, by decide,
    (ownership_403_dead_nonowner_404 dbOwnedEx (some 2) [] 1 7 (by decide)).2.2.2.2.1,
    ((ownership_403_dead_nonowner_404 dbOwnedEx (some 2) [] 1 7
        (by decide)).2.2.2.2.2 sudokuOwnedEx (by decide) (by decide)
      (by decide)).2.2.2.2⟩

/-! ### C4 -/

/-- A single game record with zero time and score: its `Avg`/`Min`
aggregates are 0, which the `or None` coercions turn into `None`. -/
def gameZeroEx : GameRecord where
  user := 1
  score := 0
  hints_used := 0
  checks_used := 0
  deletions := 0
  time_taken := 0
  won := false
  status := GameStatus.in_progress
  original_puzzle := gridEx
  solution := gridEx
  final_state := gridEx

/-- C4 counterexample: for a user whose single game record took 0 seconds,
the `Avg("time_taken")` aggregate is 0 but `recalculate_from_games` stores
`None` (the code does `stats["average_time_seconds"] or None`), so the
stored field does not equal the Avg aggregate; `best_time_seconds` and
`average_score` are likewise `None` instead of 0. -/
theorem recalculate_zero_average_not_aggregate :
    agg_average_time [gameZeroEx] = 0 ∧
    (recalculate_from_games [gameZeroEx]).average_time_seconds = none ∧
    (recalculate_from_games [gameZeroEx]).average_time_seconds
      ≠ some (agg_average_time [gameZeroEx]) ∧
    agg_best_time [gameZeroEx] = some 0 ∧
    (recalculate_from_games [gameZeroEx]).best_time_seconds = none ∧
    agg_average_score [gameZeroEx] = 0 ∧
    (recalculate_from_games [gameZeroEx]).average_score = none := by
  have h0 : agg_average_time [gameZeroEx] = 0 := by
    norm_num [agg_average_time, agg_total_time, gameZeroEx]
  have h1 : agg_average_score [gameZeroEx] = 0 := by
    norm_num [agg_average_score, agg_total_score, gameZeroEx]
  have h2 : agg_best_time [gameZeroEx] = some 0 := rfl
  have hat : (recalculate_from_games [gameZeroEx]).average_time_seconds = none := by
    simp [recalculate_from_games, pyOrNoneQ, h0]
  have hbt : (recalculate_from_games [gameZeroEx]).best_time_seconds = none := by
    simp [recalculate_from_games, pyOrNoneZ, h2]
  have has : (recalculate_from_games [gameZeroEx]).average_score = none := by
    simp [recalculate_from_games, h1]
  exact ⟨h0, hat, by rw [hat]; simp, h2, hbt, h1, has⟩

/-- C4 amended: after `recalculate_from_games`, the counts, the win rate
and the `Sum` fields equal the corresponding aggregates (win_rate being
`round(won/total, 3)` when there are records and 0.0 otherwise, and every
field its model default when the user has no records), but
`average_time_seconds` and `best_time_seconds` hold the Avg/Min aggregate
with a zero value coerced to null, `average_score` holds the Avg aggregate
rounded to 2 decimals with a zero average coerced to null, and
`best_score` holds the Max aggregate. -/
theorem recalculate_from_games_fields (l : List GameRecord) :
    (l = [] → recalculate_from_games l = UserStats.resetDefaults) ∧
    (l ≠ [] →
      (recalculate_from_games l).total_games = agg_total_games l ∧
      (recalculate_from_games l).won_games = agg_won_games l ∧
      (recalculate_from_games l).lost_games = agg_lost_games l ∧
      (recalculate_from_games l).completed_games = agg_status_games l GameStatus.completed ∧
      (recalculate_from_games l).abandoned_games = agg_status_games l GameStatus.abandoned ∧
      (recalculate_from_games l).stopped_games = agg_status_games l GameStatus.stopped ∧
      (recalculate_from_games l).in_progress_games
          = agg_status_games l GameStatus.in_progress ∧
      (recalculate_from_games l).win_rate
          = pyRound ((agg_won_games l : ℚ) / (agg_total_games l : ℚ)) 3 ∧
      (recalculate_from_games l).total_time_seconds = agg_total_time l ∧
      (recalculate_from_games l).average_time_seconds
          = (if agg_average_time l = 0 then none else some (agg_average_time l)) ∧
      (recalculate_from_games l).best_time_seconds
          = (match agg_best_time l with
             | none => none
             | some m => if m = 0 then none else some m) ∧
      (recalculate_from_games l).total_score = agg_total_score l ∧
      (recalculate_from_games l).average_score
          = (if agg_average_score l = 0 then none
             else some (pyRound (agg_average_score l) 2)) ∧
      (recalculate_from_games l).best_score
          = (match agg_best_score l with
             | none => some 0
             | some m => some m) ∧
      (recalculate_from_games l).total_hints_used = agg_total_hints l ∧
      (recalculate_from_games l).total_checks_used = agg_total_checks l ∧
      (recalculate_from_games l).total_deletions = agg_total_deletions l) := by
  constructor
  · intro hl
    subst hl
    rfl
  · intro hl
    have hne : l.isEmpty = false := by
      simpa using hl
    have hpos : 0 < agg_total_games l := by
      simpa [agg_total_games, List.length_pos] using hl
    refine ⟨?_, ?_, ?_, ?_, ?_, ?_, ?_, ?_, ?_, ?_, ?_, ?_, ?_, ?_, ?_, ?_, ?_⟩ <;>
      simp only [recalculate_from_games, hne, Bool.false_eq_true, if_false,
        pyOrZero_eq, pyOrNoneQ, pyOrNoneZ]
    all_goals rw [if_pos hpos]

theorem recalculate_from_games_fields_witness :
    ([gameZeroEx] : List GameRecord) ≠ [] ∧
    (recalculate_from_games [gameZeroEx]).total_games = agg_total_games [gameZeroEx] :=
  ⟨by decide, ((recalculate_from_games_fields [gameZeroEx]).2 (by decide)).1⟩

/-! ### C10 -/

/-- C10: the leaderboard returns at most `min(limit, 100)` entries, every
entry is an active user with `total_games > 0`, and the entries are in
descending lexicographic order of (total_score, best_score, win_rate,
completed_games). -/
theorem leaderboard_spec (rows : List LeaderRow) (limitParam : ℕ) :
    (leaderboard rows limitParam).length ≤ min limitParam 100 ∧
    (∀ r ∈ leaderboard rows limitParam, r.is_active = true ∧ 0 < r.total_games) ∧
    (leaderboard rows limitParam).Sorted leaderOrder := by
  refine ⟨?_, ?_, ?_⟩
  · exact List.length_take_le _ _
  · intro r hr
    have h1 : r ∈ (rows.filter
        (fun r => r.is_active && decide (0 < r.total_games))).insertionSort leaderOrder :=
      (List.take_sublist _ _).subset hr
    have h2 : r ∈ rows.filter (fun r => r.is_active && decide (0 < r.total_games)) :=
      (List.perm_insertionSort leaderOrder _).subset h1
    have h3 := (List.mem_filter.1 h2).2
    simp only [Bool.and_eq_true, decide_eq_true_eq] at h3
    exact h3
  · exact ((List.sorted_insertionSort leaderOrder _).sublist (List.take_sublist _ _))

/-- An active user row with one game played. -/
def activeRowEx : LeaderRow where
  user_id := 5
  username := "a"
  is_active := true
  total_games := 1
  won_games := 1
  completed_games := 1
  win_rate := 1
  total_score := 10
  best_score := 10

theorem leaderboard_spec_witness :
    activeRowEx ∈ leaderboard [activeRowEx] 10 ∧
    (activeRowEx.is_active = true ∧ 0 < activeRowEx.total_games) :=
  ⟨by decide, (leaderboard_spec [activeRowEx] 10).2.1 activeRowEx (by decide)⟩

/-! ### C5 -/

/-- `activeRowEx` after a further game: its scores changed, so a fresh
leaderboard computation would differ. -/
def activeRowEx2 : LeaderRow where
  user_id := 5
  username := "a"
  is_active := true
  total_games := 2
  won_games := 2
  completed_games := 2
  win_rate := 1
  total_score := 20
  best_score := 10

/-- C5 (code bug): `GameRecord.save` deletes the cache keys
`user_stats_<id>` and `"leaderboard"`, but the leaderboard endpoint caches
under `leaderboard_<limit>`, so the entry the endpoint actually uses
survives the save: after a leaderboard read with limit 10, a game-record
save for that user, and updated stats, the endpoint still serves the
leaderboard computed from the old stats, not a recomputation. -/
theorem gamerecord_save_misses_leaderboard_cache :
    (leaderboard_endpoint
        (game_record_save_cache_effect (leaderboard_endpoint [] [activeRowEx] 10).2 5)
        [activeRowEx2] 10).1 = leaderboard [activeRowEx] 10 ∧
    (leaderboard_endpoint
        (game_record_save_cache_effect (leaderboard_endpoint [] [activeRowEx] 10).2 5)
        [activeRowEx2] 10).1 ≠ leaderboard [activeRowEx2] 10 ∧
    leaderboard [activeRowEx] 10 = [activeRowEx] ∧
    leaderboard [activeRowEx2] 10 = [activeRowEx2] := by
  decide

/-! ### C7 -/

theorem split_into_boxes_eq (img : Img) (hh : img.h % 9 = 0) (hw : img.w % 9 = 0) :
    split_into_boxes img
      = some (((List.range 9).map (fun r =>
          (List.range 9).map (fun c => boxAt img r c))).flatten) := by
  obtain ⟨h, w, px⟩ := img
  replace hh : h % 9 = 0 := hh
  replace hw : w % 9 = 0 := hw
  have h9 : List.range 9 = [0, 1, 2, 3, 4, 5, 6, 7, 8] := by decide
  simp only [split_into_boxes, vsplit9, hsplit9, boxAt, h9]
  rw [if_pos hh]
  simp only [List.map_cons, List.map_nil, splitRows, hsplit9, hw]
  simp [h9]

set_option maxHeartbeats 1000000 in
set_option maxRecDepth 4000 in
/-- C7: whenever `detect_sudoku_digits` accepts an image (it decodes and a
quadrilateral grid contour is found, so the task returns success), the
perspective-corrected grayscale grid measures 450×450, `split_into_boxes`
cuts it into exactly 81 boxes laid out as 9 rows × 9 columns in row-major
order (each box 50×50), and the returned `grid` value is the concatenation
of one classifier digit per box — a string of length 81, provided the
classifier's class indices are single digits (0–9, as for the 10-class
ONNX model). -/
theorem detect_pipeline_81_boxes (env : CvEnv) (image_data : List ℕ)
    (hcls : ∀ b : Img, (env.predict b).1 ≤ 9) :
    ∀ message grid,
      detect_sudoku_digits env image_data = DetectionResult.success message grid →
      ∃ gray boxes,
        gray.h = 450 ∧ gray.w = 450 ∧
        split_into_boxes gray = some boxes ∧
        boxes = ((List.range 9).map (fun r =>
          (List.range 9).map (fun c => boxAt gray r c))).flatten ∧
        boxes.length = 81 ∧
        (∀ b ∈ boxes, b.h = 50 ∧ b.w = 50) ∧
        grid = String.join ((detect_digits env boxes).map (fun d => toString d)) ∧
        grid.length = 81 := by
  intro message grid h
  unfold detect_sudoku_digits at h
  cases hdec : env.decode image_data with
  | none =>
    rw [hdec] at h
    exact DetectionResult.noConfusion h
  | some decoded =>
    rw [hdec] at h
    dsimp only at h
    cases hbc : get_biggest_contour env (env.findContours (preprocess_image env
        (cvResize env decoded IMG_WIDTH IMG_HEIGHT))) with
    | none =>
      rw [hbc] at h
      exact DetectionResult.noConfusion h
    | some biggest_contour =>
      rw [hbc] at h
      dsimp only at h
      have hsplit := split_into_boxes_eq
        (cvtGray env (warpPerspective env (cvResize env decoded IMG_WIDTH IMG_HEIGHT)
          (reorder biggest_contour) IMG_WIDTH IMG_HEIGHT))
        (by norm_num [cvtGray, warpPerspective, IMG_HEIGHT])
        (by norm_num [cvtGray, warpPerspective, IMG_WIDTH])
      rw [hsplit] at h
      dsimp only at h
      have hlen : (((List.range 9).map (fun r =>
          (List.range 9).map (fun c => boxAt (cvtGray env (warpPerspective env
            (cvResize env decoded IMG_WIDTH IMG_HEIGHT) (reorder biggest_contour)
            IMG_WIDTH IMG_HEIGHT)) r c))).flatten).length = 81 := by
        simp only [List.length_flatten, List.map_map, Function.comp_def, List.length_map,
          List.length_range, List.map_const', List.sum_replicate, smul_eq_mul]
      refine ⟨cvtGray env (warpPerspective env (cvResize env decoded IMG_WIDTH IMG_HEIGHT)
        (reorder biggest_contour) IMG_WIDTH IMG_HEIGHT), _, rfl, rfl, hsplit, rfl, hlen,
        ?_, ?_, ?_⟩
      · intro b hb
        simp only [List.mem_flatten, List.mem_map, List.mem_range] at hb
        obtain ⟨row, ⟨r, -, hrow⟩, hbrow⟩ := hb
        rw [← hrow] at hbrow
        simp only [List.mem_map, List.mem_range] at hbrow
        obtain ⟨c, -, hbc'⟩ := hbrow
        rw [← hbc']
        constructor <;>
          norm_num [boxAt, cvtGray, warpPerspective, IMG_WIDTH, IMG_HEIGHT]
      · exact (DetectionResult.success.inj h).2.symm
      · have h2 := (DetectionResult.success.inj h).2
        rw [← h2, string_join_length, List.map_map]
        have hdig : ∀ d ∈ detect_digits env (((List.range 9).map (fun r =>
            (List.range 9).map (fun c => boxAt (cvtGray env (warpPerspective env
              (cvResize env decoded IMG_WIDTH IMG_HEIGHT) (reorder biggest_contour)
              IMG_WIDTH IMG_HEIGHT)) r c))).flatten), d ≤ 9 := by
          intro d hd
          simp only [detect_digits, List.mem_map] at hd
          obtain ⟨b, -, hfd⟩ := hd
          rw [← hfd]
          split
          · exact hcls _
          · exact Nat.zero_le 9
        have hcongr := List.map_congr_left
          (fun d hd => toString_digit_length (hdig d hd))
        rw [Function.comp_def, hcongr, List.map_const', List.sum_replicate,
          smul_eq_mul, mul_one, detect_digits, List.length_map, hlen]

/-- A constant 450×450 image used for the concrete pipeline run. -/
def img450 : Img where
  h := 450
  w := 450
  px := fun _ _ => 0

/-- A concrete cv2/ONNX environment on which the whole pipeline succeeds:
decoding yields `img450`, one contour of area 100 approximated by a
quadrilateral is found, and the classifier answers digit 5 with
probability 1 on every box. -/
def envEx : CvEnv where
  decode := fun _ => some img450
  interp := fun _ _ _ _ _ => 0
  grayOp := id
  blurOp := id
  threshOp := id
  findContours := fun _ => [0]
  area := fun _ => 100
  perimeter := fun _ => 4
  approxPolyDP := fun _ _ => [(0, 0), (450, 0), (0, 450), (450, 450)]
  warpPx := fun _ _ _ _ _ _ => 0
  grayPx := fun _ _ _ => 0
  predict := fun _ => (5, 1)

/-- The grayscale grid image of the concrete run. -/
def grayEx : Img :=
  cvtGray envEx (warpPerspective envEx (cvResize envEx img450 IMG_WIDTH IMG_HEIGHT)
    (reorder [(0, 0), (450, 0), (0, 450), (450, 450)]) IMG_WIDTH IMG_HEIGHT)

/-- The 81 boxes of the concrete run. -/
def boxesEx : List Img :=
  ((List.range 9).map (fun r => (List.range 9).map (fun c => boxAt grayEx r c))).flatten

theorem detect_digits_envEx (boxes : List Img) :
    detect_digits envEx boxes = List.replicate boxes.length 5 := by
  unfold detect_digits
  have hprob : (8 : ℚ) / 10 < 1 := by norm_num
  have hone : ∀ b : Img,
      (fun image =>
        let img := cvResize envEx image 28 28
        let prediction := envEx.predict img
        if 8 / 10 < prediction.2 then prediction.1 else 0) b = 5 := by
    intro b
    exact if_pos hprob
  rw [List.map_congr_left (fun b _ => hone b)]
  simp [List.map_const']

theorem detect_pipeline_81_boxes_run :
    detect_sudoku_digits envEx [1]
      = DetectionResult.success "Digit detection completed successfully"
          (String.join ((List.replicate 81 (5 : ℕ)).map (fun d => toString d))) := by
  have hdec : envEx.decode [1] = some img450 := rfl
  have hbig : get_biggest_contour envEx (envEx.findContours (preprocess_image envEx
      (cvResize envEx img450 IMG_WIDTH IMG_HEIGHT)))
      = some [(0, 0), (450, 0), (0, 450), (450, 450)] := by
    norm_num [get_biggest_contour, envEx, preprocess_image, cvResize]
  have hsplit : split_into_boxes (cvtGray envEx (warpPerspective envEx
        (cvResize envEx img450 IMG_WIDTH IMG_HEIGHT)
        (reorder [(0, 0), (450, 0), (0, 450), (450, 450)]) IMG_WIDTH IMG_HEIGHT))
      = some boxesEx := by
    rw [split_into_boxes_eq _ (by norm_num [cvtGray, warpPerspective, IMG_HEIGHT])
        (by norm_num [cvtGray, warpPerspective, IMG_WIDTH])]
    rfl
  have hlen : boxesEx.length = 81 := by
    have h9 : List.range 9 = [0, 1, 2, 3, 4, 5, 6, 7, 8] := by decide
    simp [boxesEx, h9]
  unfold detect_sudoku_digits
  rw [hdec]
  dsimp only
  rw [hbig]
  dsimp only
  rw [hsplit]
  dsimp only
  rw [detect_digits_envEx, hlen]

theorem detect_pipeline_81_boxes_witness :
    (∀ b : Img, (envEx.predict b).1 ≤ 9) ∧
    (String.join ((List.replicate 81 (5 : ℕ)).map (fun d => toString d))).length = 81 := by
  have hcls : ∀ b : Img, (envEx.predict b).1 ≤ 9 := fun _ => by norm_num [envEx]
  refine ⟨hcls, ?_⟩
  obtain ⟨-, -, -, -, -, -, -, -, -, hlen⟩ :=
    detect_pipeline_81_boxes envEx [1] hcls
      "Digit detection completed successfully"
      (String.join ((List.replicate 81 (5 : ℕ)).map (fun d => toString d)))
      detect_pipeline_81_boxes_run
  exact hlen

end SudokuAPI
